import Mathlib

/-!
Shallow embedding of the download orchestration core of
`11-CS2-SIR-SAR-L2-E-ANTARC-download-script.py`: the thread-safe
statistics tracker `DownloadStats`, the per-path transfer worker
`download_single_file` (skip check, memory admission guard, retry loop
with linear backoff), the orchestration loop `download_files_parallel`,
and a labelled transition system for the `FTPConnectionPool` as it is
driven by workers holding the global `ftp_semaphore` permit.

Machine integers do not overflow in the modelled fragment (Python ints
are unbounded), so counters and byte totals are `Nat`.
-/

namespace Cryo2Ice

/-- Configuration constant `MAX_WORKERS = 3` (worker threads, semaphore
permits, and pool capacity all use this value). -/
def MAX_WORKERS : Nat := 3

/-- Configuration constant `MEMORY_THRESHOLD = 90` (percent). -/
def MEMORY_THRESHOLD : Nat := 90

/-- Configuration constant `MAX_RETRIES = 3`. -/
def MAX_RETRIES : Nat := 3

/-- Configuration constant `RETRY_DELAY = 5` (seconds). -/
def RETRY_DELAY : Nat := 5

/-- State of the `DownloadStats` tracker: the four counters guarded by
its lock, plus the immutable `total_files` set at construction. -/
structure DownloadStats where
  total_files : Nat
  completed : Nat
  failed : Nat
  skipped : Nat
  total_bytes : Nat
deriving Repr, DecidableEq

/-- Constructor `DownloadStats.__init__(total_files)`: all counters start at zero. -/
def DownloadStats.init (total : Nat) : DownloadStats :=
  { total_files := total, completed := 0, failed := 0, skipped := 0, total_bytes := 0 }

/-- Method `DownloadStats.update(status, bytes_downloaded)`: under the lock,
dispatch on the status string. `completed` and `skipped` add the byte
argument to `total_bytes`; `failed` does not; any other status falls
through every branch and changes nothing. -/
def DownloadStats.update (s : DownloadStats) (status : String) (bytes_downloaded : Nat) :
    DownloadStats :=
  if status = "completed" then
    { s with completed := s.completed + 1, total_bytes := s.total_bytes + bytes_downloaded }
  else if status = "failed" then
    { s with failed := s.failed + 1 }
  else if status = "skipped" then
    { s with skipped := s.skipped + 1, total_bytes := s.total_bytes + bytes_downloaded }
  else
    s

/-- Method `DownloadStats.get_progress()`: under the lock, return the four
fields of one state. -/
def DownloadStats.get_progress (s : DownloadStats) : Nat × Nat × Nat × Nat :=
  (s.completed, s.failed, s.skipped, s.total_bytes)

/-- Sum of the three terminal-outcome counters of a stats state. -/
def DownloadStats.outcomeSum (s : DownloadStats) : Nat :=
  s.completed + s.failed + s.skipped

/-- Outcome the environment (FTP server, local disk) hands one transfer
attempt inside the retry loop of `download_single_file`: either
`ftp.retrbinary` completes having streamed `bytes` bytes, or some step of
the attempt (connection, size query, open, transfer) raises, with
`partialBytes` written to the local file so far. -/
inductive AttemptOutcome where
  | success (bytes : Nat)
  | failure (partialBytes : Nat)
deriving Repr, DecidableEq

/-- Whether an attempt outcome is the raising (transport-error) case. -/
def AttemptOutcome.isFailure : AttemptOutcome → Bool
  | AttemptOutcome.success _ => false
  | AttemptOutcome.failure _ => true

/-- Environment one call of `download_single_file` runs against: whether
the local destination already exists and its on-disk size, the memory
percentage `psutil` samples at the admission check, and the outcome the
environment gives attempt number `i` (0-based) of the retry loop. -/
structure FileEnv where
  localExists : Bool
  localSize : Nat
  memUsage : Nat
  attempts : Nat → AttemptOutcome

/-- Observable trace and result of one `download_single_file` call: the
returned success flag and byte count, the updated stats, how many
sessions were taken from the pool (`get_connection` calls), how many were
given back (`return_connection` calls), how many were torn down on the
error path (`ftp.quit`), how many times memory was sampled, how many
retry-loop iterations ran, the backoff delays slept in order, and the
final content size of the local destination (`none` = file absent). -/
structure FileResult where
  success : Bool
  bytes : Nat
  stats : DownloadStats
  sessionsAcquired : Nat
  sessionsReturned : Nat
  sessionsClosed : Nat
  memChecks : Nat
  attemptsUsed : Nat
  sleeps : List Nat
  localFile : Option Nat

/-- The `for attempt in range(MAX_RETRIES)` loop of
`download_single_file`, entered at iteration `attempt` with `remaining`
iterations left (`remaining = MAX_RETRIES - attempt`). Each iteration
resets `bytes_downloaded` to 0, acquires the semaphore and a pooled
session, and streams the file. On success the session is returned to the
pool, stats record `completed` with the bytes of this attempt, and the file
holds exactly those bytes. On an exception the session is quit (never
returned), the partial local file is removed, and then: if this was not
the last iteration, sleep `RETRY_DELAY * (attempt + 1)` and continue;
otherwise record `failed` and return. -/
def retryLoop (env : FileEnv) (stats : DownloadStats) (attempt : Nat) :
    Nat → FileResult
  | 0 =>
    { success := false, bytes := 0, stats := stats,
      sessionsAcquired := 0, sessionsReturned := 0, sessionsClosed := 0,
      memChecks := 0, attemptsUsed := 0, sleeps := [], localFile := none }
  | remaining + 1 =>
    match env.attempts attempt with
    | AttemptOutcome.success b =>
      { success := true, bytes := b, stats := stats.update "completed" b,
        sessionsAcquired := 1, sessionsReturned := 1, sessionsClosed := 0,
        memChecks := 0, attemptsUsed := 1, sleeps := [], localFile := some b }
    | AttemptOutcome.failure _ =>
      if remaining = 0 then
        { success := false, bytes := 0, stats := stats.update "failed" 0,
          sessionsAcquired := 1, sessionsReturned := 0, sessionsClosed := 1,
          memChecks := 0, attemptsUsed := 1, sleeps := [], localFile := none }
      else
        let r := retryLoop env stats (attempt + 1) remaining
        { success := r.success, bytes := r.bytes, stats := r.stats,
          sessionsAcquired := r.sessionsAcquired + 1,
          sessionsReturned := r.sessionsReturned,
          sessionsClosed := r.sessionsClosed + 1,
          memChecks := r.memChecks,
          attemptsUsed := r.attemptsUsed + 1,
          sleeps := RETRY_DELAY * (attempt + 1) :: r.sleeps,
          localFile := r.localFile }

/-- Worker `download_single_file`: if the local destination exists, record
`skipped` with its on-disk size and return without sampling memory or
touching the network; otherwise sample memory once and, if usage exceeds
`MEMORY_THRESHOLD`, record `failed` and return without acquiring a
session or entering the retry loop; otherwise run the retry loop from
attempt 0 with `MAX_RETRIES` iterations. -/
def download_single_file (env : FileEnv) (stats : DownloadStats) : FileResult :=
  if env.localExists then
    { success := true, bytes := env.localSize,
      stats := stats.update "skipped" env.localSize,
      sessionsAcquired := 0, sessionsReturned := 0, sessionsClosed := 0,
      memChecks := 0, attemptsUsed := 0, sleeps := [],
      localFile := some env.localSize }
  else if MEMORY_THRESHOLD < env.memUsage then
    { success := false, bytes := 0, stats := stats.update "failed" 0,
      sessionsAcquired := 0, sessionsReturned := 0, sessionsClosed := 0,
      memChecks := 1, attemptsUsed := 0, sleeps := [], localFile := none }
  else
    let r := retryLoop env stats 0 MAX_RETRIES
    { r with memChecks := 1 }

/-- One submitted path as the orchestrator sees it: the environment its
worker runs against, plus whether `future.result()` raises an unexpected
error during result collection (the worker died outside its try blocks,
e.g. in `os.path.getsize`, before reaching any `stats.update`). -/
structure PathEnv where
  fileEnv : FileEnv
  unexpectedError : Bool

/-- Result collection for one future in `download_files_parallel`: if the
future raises, the `except` branch only logs the error and moves on — no
stats update happens for that path; otherwise the worker body ran and its
stats update is the one `download_single_file` performed. -/
def collectResult (stats : DownloadStats) (p : PathEnv) : DownloadStats :=
  if p.unexpectedError then stats
  else (download_single_file p.fileEnv stats).stats

/-- Orchestrator `download_files_parallel`: build stats for `len(file_list)` files,
run every submitted path to completion, and return the final stats read
for the summary. Stats mutations are serialized by the `DownloadStats`
lock, so the concurrent run is modelled as a fold over the paths. -/
def download_files_parallel (envs : List PathEnv) : DownloadStats :=
  envs.foldl collectResult (DownloadStats.init envs.length)

/-- Sample environment: the local file already exists with 123 bytes. -/
def envSkip : FileEnv :=
  { localExists := true, localSize := 123, memUsage := 10,
    attempts := fun _ => AttemptOutcome.failure 0 }

/-- Sample environment: no local file, sampled memory 95 percent. -/
def envVeto : FileEnv :=
  { localExists := false, localSize := 0, memUsage := 95,
    attempts := fun _ => AttemptOutcome.failure 0 }

/-- Sample environment: every transfer attempt raises after writing 17
partial bytes. -/
def envAllFail : FileEnv :=
  { localExists := false, localSize := 0, memUsage := 50,
    attempts := fun _ => AttemptOutcome.failure 17 }

/-- Sample environment: attempt 0 raises after 40 partial bytes, attempt
1 succeeds with 100 bytes. -/
def envRetrySuccess : FileEnv :=
  { localExists := false, localSize := 0, memUsage := 50,
    attempts := fun i =>
      if i = 0 then AttemptOutcome.failure 40 else AttemptOutcome.success 100 }

/-- Sample submitted path whose future raises during result collection. -/
def envBoom : PathEnv :=
  { fileEnv := envVeto, unexpectedError := true }

/-- Sample submission: one skipped path, one vetoed path, one path that
exhausts its retries, none raising during collection. -/
def pathsDemo : List PathEnv :=
  [{ fileEnv := envSkip, unexpectedError := false },
   { fileEnv := envVeto, unexpectedError := false },
   { fileEnv := envAllFail, unexpectedError := false }]

/-- Shared state of the `FTPConnectionPool` together with the phases of
the workers driving it. Sessions are named by their creation index.
`inGet` counts workers that hold a semaphore permit and are inside
`get_connection` before popping or deciding to create; `committed`
counts workers that observed an empty pool (or popped a dead session)
and will create a new connection; `held` lists the session of each
worker currently checked out; `idle` is the pool queue front-first;
`created_connections` is the creation counter. -/
structure PoolState where
  inGet : Nat
  committed : Nat
  held : List Nat
  idle : List Nat
  created_connections : Nat
deriving Repr, DecidableEq

/-- The pool before any worker runs: no permits taken, empty queue. -/
def PoolState.emptyPool : PoolState :=
  { inGet := 0, committed := 0, held := [], idle := [], created_connections := 0 }

/-- One interleaving step of the workers against the pool, with `cap`
both the `ftp_semaphore` permit count and the pool `max_size` (the
source sets both to `MAX_WORKERS`). Workers enter `get_connection` only
holding a permit (`acquire`); inside, they either pop the queue head and
keep it if the `NOOP` probe succeeds (`popLive`), pop a dead head and
fall through to creation (`popDead`), or find the queue empty — also when
a concurrent pop won the race after the `empty()` check — and fall
through to creation (`observeEmpty`). `create` logs in a fresh session
under the creation lock. `returnToPool` is `return_connection` appending
to a non-full queue; `discardHeld` is every path that quits a checked-out
session (error path, queue full, `put` losing a race); `drainIdle` is
`close_all` quitting one idle session. -/
inductive PoolStep (cap : Nat) : PoolState → PoolState → Prop where
  | acquire (s : PoolState)
      (hp : s.inGet + s.committed + s.held.length < cap) :
      PoolStep cap s { s with inGet := s.inGet + 1 }
  | popLive (s : PoolState) (sid : Nat) (rest : List Nat)
      (hg : 0 < s.inGet) (hq : s.idle = sid :: rest) :
      PoolStep cap s
        { s with inGet := s.inGet - 1, held := sid :: s.held, idle := rest }
  | popDead (s : PoolState) (sid : Nat) (rest : List Nat)
      (hg : 0 < s.inGet) (hq : s.idle = sid :: rest) :
      PoolStep cap s
        { s with inGet := s.inGet - 1, committed := s.committed + 1, idle := rest }
  | observeEmpty (s : PoolState)
      (hg : 0 < s.inGet) (hq : s.idle = []) :
      PoolStep cap s { s with inGet := s.inGet - 1, committed := s.committed + 1 }
  | create (s : PoolState) (hc : 0 < s.committed) :
      PoolStep cap s
        { s with committed := s.committed - 1,
                 held := s.created_connections :: s.held,
                 created_connections := s.created_connections + 1 }
  | returnToPool (s : PoolState) (sid : Nat) (l1 l2 : List Nat)
      (hh : s.held = l1 ++ sid :: l2) (hq : s.idle.length < cap) :
      PoolStep cap s { s with held := l1 ++ l2, idle := s.idle ++ [sid] }
  | discardHeld (s : PoolState) (sid : Nat) (l1 l2 : List Nat)
      (hh : s.held = l1 ++ sid :: l2) :
      PoolStep cap s { s with held := l1 ++ l2 }
  | drainIdle (s : PoolState) (sid : Nat) (rest : List Nat)
      (hq : s.idle = sid :: rest) :
      PoolStep cap s { s with idle := rest }

/-- States of the pool system reachable from the empty pool under any
interleaving of worker steps. -/
inductive PoolReachable (cap : Nat) : PoolState → Prop where
  | start : PoolReachable cap PoolState.emptyPool
  | step (s t : PoolState) (hr : PoolReachable cap s) (hs : PoolStep cap s t) :
      PoolReachable cap t

/-- Inductive invariant of the pool system: permit accounting bounds the
workers inside the critical section; committed creations plus checked-out
plus idle sessions never exceed the capacity; all live session names are
distinct; and every live session name is below the creation counter. -/
def PoolState.inv (cap : Nat) (s : PoolState) : Prop :=
  s.inGet + s.committed + s.held.length ≤ cap ∧
  s.committed + s.held.length + s.idle.length ≤ cap ∧
  (s.held ++ s.idle).Nodup ∧
  ∀ x ∈ s.held ++ s.idle, x < s.created_connections

/-- A sample reachable pool state: one worker took a permit, found the
queue empty, and created session 0, which it now holds. -/
def poolDemoState : PoolState :=
  { inGet := 0, committed := 0, held := [0], idle := [], created_connections := 1 }

/-- Moving the head of the idle queue onto the held list preserves
distinctness of the live session names. -/
theorem nodup_pop (l1 l2 : List Nat) (a : Nat) (h : (l1 ++ a :: l2).Nodup) :
    ((a :: l1) ++ l2).Nodup := by
  simpa using List.perm_middle.nodup h

/-- Returning a held session to the back of the idle queue preserves
distinctness of the live session names. -/
theorem nodup_return (l1 l2 l3 : List Nat) (a : Nat)
    (h : ((l1 ++ a :: l2) ++ l3).Nodup) : ((l1 ++ l2) ++ (l3 ++ [a])).Nodup := by
  have h1 : (l1 ++ (a :: (l2 ++ l3))).Nodup := by simpa using h
  have h2 : (a :: (l1 ++ (l2 ++ l3))).Nodup := List.perm_middle.nodup h1
  have h3 : ((l1 ++ (l2 ++ l3)) ++ [a]).Nodup :=
    (List.perm_append_singleton a (l1 ++ (l2 ++ l3))).symm.nodup h2
  simpa [List.append_assoc] using h3

/-- Every pool step preserves the pool invariant. -/
theorem poolStep_inv {cap : Nat} {s t : PoolState} (hs : PoolStep cap s t)
    (h : PoolState.inv cap s) : PoolState.inv cap t := by
  obtain ⟨h1, h2, h3, h4⟩ := h
  cases hs with
  | acquire hp =>
    exact ⟨by simp; omega, h2, h3, h4⟩
  | popLive sid rest hg hq =>
    refine ⟨by simp; omega, ?_, ?_, ?_⟩
    · rw [hq] at h2; simp at h2 ⊢; omega
    · rw [hq] at h3; exact nodup_pop s.held rest sid h3
    · intro x hx
      apply h4
      rw [hq]
      simp at hx ⊢
      tauto
  | popDead sid rest hg hq =>
    refine ⟨by simp; omega, ?_, ?_, ?_⟩
    · rw [hq] at h2; simp at h2 ⊢; omega
    · rw [hq] at h3
      exact List.Nodup.sublist ((List.sublist_cons_self sid rest).append_left s.held) h3
    · intro x hx
      apply h4
      rw [hq]
      exact ((List.sublist_cons_self sid rest).append_left s.held).subset hx
  | observeEmpty hg hq =>
    refine ⟨by simp; omega, ?_, h3, h4⟩
    · rw [hq]; simp; omega
  | create hc =>
    refine ⟨by simp; omega, by simp; omega, ?_, ?_⟩
    · rw [List.cons_append, List.nodup_cons]
      exact ⟨fun hmem => absurd (h4 _ hmem) (lt_irrefl _), h3⟩
    · intro x hx
      rw [List.cons_append] at hx
      rcases List.mem_cons.mp hx with heq | hmem
      · subst heq; exact Nat.lt_succ_self _
      · exact Nat.lt_succ_of_lt (h4 x hmem)
  | returnToPool sid l1 l2 hh hq =>
    refine ⟨?_, ?_, ?_, ?_⟩
    · rw [hh] at h1; simp at h1 ⊢; omega
    · rw [hh] at h2; simp at h2 ⊢; omega
    · rw [hh] at h3; exact nodup_return l1 l2 s.idle sid h3
    · intro x hx
      apply h4
      rw [hh]
      simp at hx ⊢
      tauto
  | discardHeld sid l1 l2 hh =>
    refine ⟨?_, ?_, ?_, ?_⟩
    · rw [hh] at h1; simp at h1 ⊢; omega
    · rw [hh] at h2; simp at h2 ⊢; omega
    · rw [hh] at h3
      exact List.Nodup.sublist
        (((List.sublist_cons_self sid l2).append_left l1).append_right s.idle) h3
    · intro x hx
      apply h4
      rw [hh]
      exact (((List.sublist_cons_self sid l2).append_left l1).append_right s.idle).subset hx
  | drainIdle sid rest hq =>
    refine ⟨h1, ?_, ?_, ?_⟩
    · rw [hq] at h2; simp at h2 ⊢; omega
    · rw [hq] at h3
      exact List.Nodup.sublist ((List.sublist_cons_self sid rest).append_left s.held) h3
    · intro x hx
      apply h4
      rw [hq]
      exact ((List.sublist_cons_self sid rest).append_left s.held).subset hx

/-- The pool invariant holds at every reachable state. -/
theorem poolReachable_inv {cap : Nat} {s : PoolState} (h : PoolReachable cap s) :
    PoolState.inv cap s := by
  induction h with
  | start => refine ⟨?_, ?_, ?_, ?_⟩ <;> simp [PoolState.emptyPool]
  | step s t hr hs ih => exact poolStep_inv hs ih

/-- The sample pool state is reachable in three steps from the empty
pool with capacity `MAX_WORKERS`. -/
theorem poolDemoState_reachable : PoolReachable MAX_WORKERS poolDemoState := by
  have h0 : PoolReachable MAX_WORKERS PoolState.emptyPool := PoolReachable.start
  have h1 : PoolReachable MAX_WORKERS
      { inGet := 1, committed := 0, held := [], idle := [], created_connections := 0 } :=
    PoolReachable.step _ _ h0 (PoolStep.acquire _ (by decide))
  have h2 : PoolReachable MAX_WORKERS
      { inGet := 0, committed := 1, held := [], idle := [], created_connections := 0 } :=
    PoolReachable.step _ _ h1 (PoolStep.observeEmpty _ (by decide) rfl)
  exact PoolReachable.step _ _ h2 (PoolStep.create _ (by decide))

end Cryo2Ice

namespace Cryo2Ice

/-- C9 counterexample input: updating with status `failed` and a nonzero
byte argument leaves `total_bytes` unchanged, whereas the claim requires
every outcome to add its `bytesMoved` to the running byte total. -/
theorem C9_counterexample :
    ¬ (((DownloadStats.init 1).update "failed" 7).total_bytes =
        (DownloadStats.init 1).total_bytes + 7) := by
  decide

/-- C9 (amended): `update` increments exactly the counter named by the
outcome by one and leaves the other two unchanged; `completed` and
`skipped` add the byte argument to the running total while `failed`
leaves the total unchanged; and `get_progress` returns exactly the four
fields of the single state it reads. -/
theorem C9_update_exact (s : DownloadStats) (b : Nat) :
    ((s.update "completed" b).completed = s.completed + 1 ∧
     (s.update "completed" b).failed = s.failed ∧
     (s.update "completed" b).skipped = s.skipped ∧
     (s.update "completed" b).total_bytes = s.total_bytes + b) ∧
    ((s.update "failed" b).failed = s.failed + 1 ∧
     (s.update "failed" b).completed = s.completed ∧
     (s.update "failed" b).skipped = s.skipped ∧
     (s.update "failed" b).total_bytes = s.total_bytes) ∧
    ((s.update "skipped" b).skipped = s.skipped + 1 ∧
     (s.update "skipped" b).completed = s.completed ∧
     (s.update "skipped" b).failed = s.failed ∧
     (s.update "skipped" b).total_bytes = s.total_bytes + b) ∧
    s.get_progress = (s.completed, s.failed, s.skipped, s.total_bytes) := by
  simp [DownloadStats.update, DownloadStats.get_progress]

/-- C10: an unrecognized status string leaves the whole stats state
unchanged: the update is silently ignored, never rejected or partially
applied. -/
theorem C10_unknown_status_noop (s : DownloadStats) (status : String) (b : Nat)
    (hc : status ≠ "completed") (hf : status ≠ "failed") (hk : status ≠ "skipped") :
    s.update status b = s := by
  simp [DownloadStats.update, hc, hf, hk]

/-- C10 witness: the concrete status string `pending` with nonzero bytes
leaves a concrete stats state unchanged. -/
theorem C10_unknown_status_noop_witness :
    (DownloadStats.init 5).update "pending" 42 = DownloadStats.init 5 :=
  C10_unknown_status_noop (DownloadStats.init 5) "pending" 42
    (by decide) (by decide) (by decide)

/-- C2: at every reachable state of the pool, under any interleaving of
the worker calls to `get_connection` and `return_connection` (each made
while holding an `ftp_semaphore` permit, with permit count and pool
capacity both `cap` as in the source), the number of sessions checked
out plus the number idle in the queue is at most the capacity, and no
session is checked out by two workers at once. -/
theorem C2_pool_capacity_exclusive (cap : Nat) (s : PoolState)
    (h : PoolReachable cap s) :
    s.held.length + s.idle.length ≤ cap ∧ s.held.Nodup := by
  obtain ⟨-, h2, h3, -⟩ := poolReachable_inv h
  exact ⟨by omega, (List.nodup_append.mp h3).1⟩

/-- C2 witness: the bound and exclusivity hold at the concrete reachable
state in which one freshly created session is checked out. -/
theorem C2_pool_capacity_exclusive_witness :
    poolDemoState.held.length + poolDemoState.idle.length ≤ MAX_WORKERS ∧
    poolDemoState.held.Nodup :=
  C2_pool_capacity_exclusive MAX_WORKERS poolDemoState poolDemoState_reachable

/-- C7: a path whose local destination already exists terminates as
skipped, adds the existing on-disk size to the byte total, and performs
no memory check, no session acquisition, and no transfer attempt. -/
theorem C7_skip_existing (env : FileEnv) (stats : DownloadStats)
    (h : env.localExists = true) :
    (download_single_file env stats).success = true ∧
    (download_single_file env stats).bytes = env.localSize ∧
    (download_single_file env stats).stats = stats.update "skipped" env.localSize ∧
    (download_single_file env stats).sessionsAcquired = 0 ∧
    (download_single_file env stats).memChecks = 0 ∧
    (download_single_file env stats).attemptsUsed = 0 := by
  refine ⟨?_, ?_, ?_, ?_, ?_, ?_⟩ <;> simp [download_single_file, h]

/-- C7 witness: the skip behaviour on a concrete pre-existing 123-byte
file. -/
theorem C7_skip_existing_witness :
    (download_single_file envSkip (DownloadStats.init 1)).success = true ∧
    (download_single_file envSkip (DownloadStats.init 1)).bytes = envSkip.localSize ∧
    (download_single_file envSkip (DownloadStats.init 1)).stats =
      (DownloadStats.init 1).update "skipped" envSkip.localSize ∧
    (download_single_file envSkip (DownloadStats.init 1)).sessionsAcquired = 0 ∧
    (download_single_file envSkip (DownloadStats.init 1)).memChecks = 0 ∧
    (download_single_file envSkip (DownloadStats.init 1)).attemptsUsed = 0 :=
  C7_skip_existing envSkip (DownloadStats.init 1) rfl

/-- C4: when the local file is absent and the sampled memory usage
exceeds the threshold, the path fails immediately: one terminal failed
record, no session acquired, zero retry attempts, no backoff slept. -/
theorem C4_admission_veto (env : FileEnv) (stats : DownloadStats)
    (hex : env.localExists = false) (hmem : MEMORY_THRESHOLD < env.memUsage) :
    (download_single_file env stats).success = false ∧
    (download_single_file env stats).stats = stats.update "failed" 0 ∧
    (download_single_file env stats).sessionsAcquired = 0 ∧
    (download_single_file env stats).attemptsUsed = 0 ∧
    (download_single_file env stats).sleeps = [] := by
  refine ⟨?_, ?_, ?_, ?_, ?_⟩ <;> simp [download_single_file, hex, hmem]

/-- C4 witness: the veto behaviour at a concrete 95 percent memory
sample. -/
theorem C4_admission_veto_witness :
    (download_single_file envVeto (DownloadStats.init 1)).success = false ∧
    (download_single_file envVeto (DownloadStats.init 1)).stats =
      (DownloadStats.init 1).update "failed" 0 ∧
    (download_single_file envVeto (DownloadStats.init 1)).sessionsAcquired = 0 ∧
    (download_single_file envVeto (DownloadStats.init 1)).attemptsUsed = 0 ∧
    (download_single_file envVeto (DownloadStats.init 1)).sleeps = [] :=
  C4_admission_veto envVeto (DownloadStats.init 1) rfl (by decide)

/-- A failing attempt outcome carries some partial byte count. -/
theorem isFailure_eq (o : AttemptOutcome) (h : o.isFailure = true) :
    ∃ p, o = AttemptOutcome.failure p := by
  cases o with
  | success b => simp [AttemptOutcome.isFailure] at h
  | failure p => exact ⟨p, rfl⟩

/-- C5: when every one of the `MAX_RETRIES` attempts raises a transport
error, the path is reported failed, the session of each attempt is quit
and never returned to the pool, and no partial file remains at the local
destination. -/
theorem C5_exhausted_failure_cleanup (env : FileEnv) (stats : DownloadStats)
    (hex : env.localExists = false) (hmem : env.memUsage ≤ MEMORY_THRESHOLD)
    (hf : ∀ i, i < MAX_RETRIES → (env.attempts i).isFailure = true) :
    (download_single_file env stats).success = false ∧
    (download_single_file env stats).stats = stats.update "failed" 0 ∧
    (download_single_file env stats).localFile = none ∧
    (download_single_file env stats).sessionsReturned = 0 ∧
    (download_single_file env stats).sessionsClosed = MAX_RETRIES := by
  have hc : ¬ (MEMORY_THRESHOLD < env.memUsage) := by omega
  obtain ⟨p0, e0⟩ := isFailure_eq _ (hf 0 (by decide))
  obtain ⟨p1, e1⟩ := isFailure_eq _ (hf 1 (by decide))
  obtain ⟨p2, e2⟩ := isFailure_eq _ (hf 2 (by decide))
  refine ⟨?_, ?_, ?_, ?_, ?_⟩ <;>
    simp [download_single_file, hex, hc, MAX_RETRIES, retryLoop, e0, e1, e2]

/-- C5 witness: a concrete path whose three attempts all raise after 17
partial bytes ends failed with no file left behind. -/
theorem C5_exhausted_failure_cleanup_witness :
    (download_single_file envAllFail (DownloadStats.init 1)).success = false ∧
    (download_single_file envAllFail (DownloadStats.init 1)).stats =
      (DownloadStats.init 1).update "failed" 0 ∧
    (download_single_file envAllFail (DownloadStats.init 1)).localFile = none ∧
    (download_single_file envAllFail (DownloadStats.init 1)).sessionsReturned = 0 ∧
    (download_single_file envAllFail (DownloadStats.init 1)).sessionsClosed = MAX_RETRIES :=
  C5_exhausted_failure_cleanup envAllFail (DownloadStats.init 1) rfl (by decide)
    (by decide)

/-- C6: a path that fails on every attempt before attempt `k` and then
succeeds on attempt `k` is recorded completed with the byte count of the
successful attempt alone — the per-attempt counter restarts at zero, so
bytes of failed attempts are not summed in. -/
theorem C6_retry_success_bytes (env : FileEnv) (stats : DownloadStats) (k b : Nat)
    (hex : env.localExists = false) (hmem : env.memUsage ≤ MEMORY_THRESHOLD)
    (hk : k < MAX_RETRIES)
    (hs : env.attempts k = AttemptOutcome.success b)
    (hf : ∀ j, j < k → (env.attempts j).isFailure = true) :
    (download_single_file env stats).success = true ∧
    (download_single_file env stats).bytes = b ∧
    (download_single_file env stats).stats = stats.update "completed" b := by
  have hc : ¬ (MEMORY_THRESHOLD < env.memUsage) := by omega
  have hk3 : k < 3 := hk
  interval_cases k
  · refine ⟨?_, ?_, ?_⟩ <;>
      simp [download_single_file, hex, hc, MAX_RETRIES, retryLoop, hs]
  · obtain ⟨p0, e0⟩ := isFailure_eq _ (hf 0 (by decide))
    refine ⟨?_, ?_, ?_⟩ <;>
      simp [download_single_file, hex, hc, MAX_RETRIES, retryLoop, e0, hs]
  · obtain ⟨p0, e0⟩ := isFailure_eq _ (hf 0 (by decide))
    obtain ⟨p1, e1⟩ := isFailure_eq _ (hf 1 (by decide))
    refine ⟨?_, ?_, ?_⟩ <;>
      simp [download_single_file, hex, hc, MAX_RETRIES, retryLoop, e0, e1, hs]

/-- C6 witness: after one failed attempt that wrote 40 partial bytes, a
successful 100-byte attempt is recorded as 100 bytes, not 140. -/
theorem C6_retry_success_bytes_witness :
    (download_single_file envRetrySuccess (DownloadStats.init 1)).success = true ∧
    (download_single_file envRetrySuccess (DownloadStats.init 1)).bytes = 100 ∧
    (download_single_file envRetrySuccess (DownloadStats.init 1)).stats =
      (DownloadStats.init 1).update "completed" 100 :=
  C6_retry_success_bytes envRetrySuccess (DownloadStats.init 1) 1 100 rfl
    (by decide) (by decide) (by decide) (by decide)

/-- C8: the retry loop makes at most `MAX_RETRIES` attempts, and the
backoff delays slept are exactly `RETRY_DELAY * k` after the k-th
(1-based) failed non-final attempt, in order — linear backoff, with no
delay after the last attempt. -/
theorem C8_linear_backoff (env : FileEnv) (stats : DownloadStats)
    (hex : env.localExists = false) (hmem : env.memUsage ≤ MEMORY_THRESHOLD) :
    (download_single_file env stats).attemptsUsed ≤ MAX_RETRIES ∧
    (download_single_file env stats).sleeps =
      (List.range ((download_single_file env stats).attemptsUsed - 1)).map
        (fun i => RETRY_DELAY * (i + 1)) := by
  have hc : ¬ (MEMORY_THRESHOLD < env.memUsage) := by omega
  rcases e0 : env.attempts 0 with b0 | p0 <;>
    rcases e1 : env.attempts 1 with b1 | p1 <;>
      rcases e2 : env.attempts 2 with b2 | p2 <;>
        refine ⟨?_, ?_⟩ <;>
          simp [download_single_file, hex, hc, MAX_RETRIES, RETRY_DELAY, retryLoop,
                e0, e1, e2, List.range_succ]

/-- C8 witness: three failing attempts sleep exactly 5 then 10 seconds,
with no sleep after the third. -/
theorem C8_linear_backoff_witness :
    (download_single_file envAllFail (DownloadStats.init 1)).attemptsUsed ≤ MAX_RETRIES ∧
    (download_single_file envAllFail (DownloadStats.init 1)).sleeps =
      (List.range ((download_single_file envAllFail (DownloadStats.init 1)).attemptsUsed - 1)).map
        (fun i => RETRY_DELAY * (i + 1)) :=
  C8_linear_backoff envAllFail (DownloadStats.init 1) rfl (by decide)

/-- Each normally completing worker call records exactly one terminal
outcome: the sum of the three outcome counters grows by exactly one. -/
theorem download_single_outcome_sum (env : FileEnv) (stats : DownloadStats) :
    (download_single_file env stats).stats.outcomeSum = stats.outcomeSum + 1 := by
  rcases hex : env.localExists with _ | _
  · by_cases hc : MEMORY_THRESHOLD < env.memUsage
    · simp [download_single_file, hex, hc, DownloadStats.update, DownloadStats.outcomeSum]
      omega
    · rcases e0 : env.attempts 0 with b0 | p0 <;>
        rcases e1 : env.attempts 1 with b1 | p1 <;>
          rcases e2 : env.attempts 2 with b2 | p2 <;>
            simp [download_single_file, hex, hc, MAX_RETRIES, retryLoop, e0, e1, e2,
                  DownloadStats.update, DownloadStats.outcomeSum] <;> omega
  · simp [download_single_file, hex, DownloadStats.update, DownloadStats.outcomeSum]
    omega

/-- Folding result collection over the submitted paths adds one outcome
per path whose future completes normally and none for a path whose
future raises. -/
theorem foldl_outcome_sum (envs : List PathEnv) (s : DownloadStats) :
    (envs.foldl collectResult s).outcomeSum =
      s.outcomeSum + (envs.filter (fun p => !p.unexpectedError)).length := by
  induction envs generalizing s with
  | nil => simp
  | cons p rest ih =>
    rcases hp : p.unexpectedError with _ | _
    · simp only [List.foldl_cons, ih, collectResult, hp, List.filter_cons]
      simp [download_single_outcome_sum]
      omega
    · simp only [List.foldl_cons, ih, collectResult, hp, List.filter_cons]
      simp

/-- C1: when every submitted future completes with one of the normal
terminal outcomes (completed, skipped, vetoed, exhausted-failed), the
final stats satisfy completed + skipped + failed = N: each path is
counted exactly once, none twice, none lost. -/
theorem C1_total_accounting (envs : List PathEnv)
    (h : ∀ p ∈ envs, p.unexpectedError = false) :
    (download_files_parallel envs).completed + (download_files_parallel envs).skipped +
      (download_files_parallel envs).failed = envs.length := by
  have hsum := foldl_outcome_sum envs (DownloadStats.init envs.length)
  have hfil : envs.filter (fun p => !p.unexpectedError) = envs := by
    apply List.filter_eq_self.mpr
    intro p hp
    simp [h p hp]
  rw [hfil] at hsum
  have h0 : (DownloadStats.init envs.length).outcomeSum = 0 := rfl
  rw [h0] at hsum
  have hfinal : (download_files_parallel envs).outcomeSum = envs.length := by
    show (envs.foldl collectResult (DownloadStats.init envs.length)).outcomeSum = envs.length
    rw [hsum]
    exact Nat.zero_add _
  simp only [DownloadStats.outcomeSum] at hfinal
  omega

/-- C1 witness: one skipped, one vetoed, and one exhausted path give
counts summing to 3. -/
theorem C1_total_accounting_witness :
    (download_files_parallel pathsDemo).completed +
      (download_files_parallel pathsDemo).skipped +
      (download_files_parallel pathsDemo).failed = pathsDemo.length :=
  C1_total_accounting pathsDemo (by simp [pathsDemo])

/-- C3 counterexample input: a single path whose future raises during
result collection ends the run with `failed = 0` — the path is not
recorded as failed in the statistics, contradicting the claim, which
requires `failed = 1` for it. -/
theorem C3_counterexample :
    (download_files_parallel [envBoom]).failed = 0 ∧
    ¬ ((download_files_parallel [envBoom]).failed = 1) := by
  refine ⟨rfl, ?_⟩
  intro h
  simp [download_files_parallel, collectResult, envBoom, DownloadStats.init,
        List.foldl_cons] at h

/-- C3 (amended): an unexpected error in a future is logged and the loop
moves on: the remaining paths are still processed and the run terminates
with a final summary, but the erroring path is not recorded in the
statistics, so the outcome counters sum to the number of paths whose
futures completed normally rather than to N. -/
theorem C3_amended_collection (envs : List PathEnv) :
    (download_files_parallel envs).outcomeSum =
      (envs.filter (fun p => !p.unexpectedError)).length := by
  have hsum := foldl_outcome_sum envs (DownloadStats.init envs.length)
  simpa [download_files_parallel, DownloadStats.outcomeSum, DownloadStats.init]
    using hsum

end Cryo2Ice
